import Mathlib

/-!
Verification of the RCA-Data-Collection-in-Zambia metrics and record-upsert
contract.  The definitions below are a shallow embedding of:
  - `save_draft`, `check_duplicate_business_name`, `submit_final`,
    `DraftManager.calculate_progress` from `src/app.py`;
  - `recalculate_totals` from `src/interview_editor.py` (textually the same
    aggregation and risk formula as in `save_draft`);
  - `InterviewEditor.revert_to_draft` from `src/interview_editor.py`.
Python numbers are modelled by `ℚ` (the formulas use only +, /, *, min);
Python `dict.get` with a default is modelled by `Option` plus `getD`;
Python truthiness of strings is `pyTruthyStr`.
-/

namespace RCA

/-- Python truthiness of an optional string value: a missing key or an empty
string is falsy, any other string is truthy. -/
def pyTruthyStr : Option String → Bool
  | none => false
  | some s => s != ""

/-- One entry of the `procedure_data` list.  The aggregation in `save_draft`
(app.py lines 1594-1595) and `recalculate_totals` (interview_editor.py lines
504-505) reads only the three numeric keys via `proc.get(key, 0)`, so a
missing key is an `Option` that defaults to 0.  All other keys of the Python
dict are irrelevant to the aggregation and kept abstractly. -/
structure ProcEntry where
  official_fees : Option ℚ
  unofficial_payments : Option ℚ
  total_days : Option ℚ
  other_fields : List (String × String)
deriving DecidableEq

/-- `sum(proc.get('official_fees', 0) + proc.get('unofficial_payments', 0)
for proc in procedure_data)` — app.py line 1594 / interview_editor.py 504. -/
def totalCost : List ProcEntry → ℚ
  | [] => 0
  | p :: rest =>
      (p.official_fees.getD 0 + p.unofficial_payments.getD 0) + totalCost rest

/-- `sum(proc.get('total_days', 0) for proc in procedure_data)` — app.py
line 1595 / interview_editor.py 505. -/
def totalTime : List ProcEntry → ℚ
  | [] => 0
  | p :: rest => p.total_days.getD 0 + totalTime rest

/-- `min((total_cost / 100000 + total_time / 365) * 10, 10)` — app.py line
1598 / interview_editor.py 507. -/
def risk_score (total_cost total_time : ℚ) : ℚ :=
  min ((total_cost / 100000 + total_time / 365) * 10) 10

/-- The state of a JSON-text-embedded list value as `calculate_progress`
sees it.  `missing`: the key is absent or its value is falsy (empty string,
empty Python list, `None`) so the `if form_data.get(key):` guard fails.
`rawMalformed`: the value is truthy but `json.loads` on it (or `len` on the
decoded value) raises — e.g. the Python list object stored by the form
screens, or corrupt text; the bare `except: pass` swallows it.
`rawDecodable l`: the value is truthy text that decodes to the list `l`. -/
inductive EmbeddedList (α : Type) where
  | missing
  | rawMalformed
  | rawDecodable (l : List α)
deriving DecidableEq

/-- The fields of the form-data dict that `DraftManager.calculate_progress`
(app.py lines 257-294, draft_manager.py lines 86-123) reads. -/
structure ProgressForm where
  business_name : Option String
  contact_person : Option String
  procedure_data : EmbeddedList ProcEntry
  completion_time_local : Option ℚ
  completion_time_national : Option ℚ
  reform_priorities : EmbeddedList String
deriving DecidableEq

/-- The sequential `sections_completed` accumulation of
`DraftManager.calculate_progress`: Section A (business name and contact
person truthy), Section B (procedure list decodes to a non-empty list),
Section C (both time values not None), Section D (reform list decodes to a
non-empty list).  Decode failures fall through the bare `except`. -/
def sectionsCompleted (form_data : ProgressForm) : Nat :=
  let sections_completed : Nat := 0
  let sections_completed :=
    if pyTruthyStr form_data.business_name && pyTruthyStr form_data.contact_person
    then sections_completed + 1 else sections_completed
  let sections_completed :=
    match form_data.procedure_data with
    | .rawDecodable procedures =>
        if procedures.length > 0 then sections_completed + 1 else sections_completed
    | _ => sections_completed
  let sections_completed :=
    if form_data.completion_time_local.isSome
        && form_data.completion_time_national.isSome
    then sections_completed + 1 else sections_completed
  match form_data.reform_priorities with
  | .rawDecodable reforms =>
      if reforms.length > 0 then sections_completed + 1 else sections_completed
  | _ => sections_completed

/-- `DraftManager.calculate_progress`: `base_progress = (sections_completed
/ 4) * 80`, plus the flat 20 for the current active section, capped at 100.
The `current_section` argument is accepted but never read by the source. -/
def calculate_progress (form_data : ProgressForm) (current_section : String) : ℚ :=
  let total_sections : ℚ := 4
  let base_progress := ((sectionsCompleted form_data : ℚ) / total_sections) * 80
  let current_section_progress : ℚ := 20
  min (base_progress + current_section_progress) 100

/-- Spec-side count of the four completion predicates, written as the claim
states them: (A) business name and contact person both non-empty, (B) the
decoded procedure list non-empty, (C) both time-percentage values present,
(D) the decoded reform-priorities list non-empty. -/
def decodedNonEmpty {α : Type} : EmbeddedList α → Bool
  | .rawDecodable (_ :: _) => true
  | _ => false

def countSpecSections (f : ProgressForm) : Nat :=
  (if pyTruthyStr f.business_name && pyTruthyStr f.contact_person then 1 else 0)
  + (if decodedNonEmpty f.procedure_data then 1 else 0)
  + (if f.completion_time_local.isSome && f.completion_time_national.isSome then 1 else 0)
  + (if decodedNonEmpty f.reform_priorities then 1 else 0)

/-- The in-memory form-data dict as `save_draft` reads it (app.py lines
1593-1736): every key is optional, `data.get(key, default)` supplies the
type's zero value.  JSON-encoded columns are modelled by the list itself
(`json.dumps` is a deterministic injective encoding). -/
structure FormData where
  interviewer_name : Option String
  interview_date : Option String
  start_time : Option String
  end_time : Option String
  business_name : Option String
  district : Option String
  physical_address : Option String
  contact_person : Option String
  email : Option String
  phone : Option String
  primary_sector : Option String
  legal_status : Option String
  business_size : Option String
  ownership_structure : Option String
  gender_owner : Option String
  business_activities : Option String
  isic_codes : Option (List String)
  year_established : Option Int
  turnover_range : Option String
  employees_fulltime : Option Int
  employees_parttime : Option Int
  procedure_data : Option (List ProcEntry)
  completion_time_local : Option ℚ
  completion_time_national : Option ℚ
  completion_time_dk : Option ℚ
  compliance_cost_percentage : Option ℚ
  permit_comparison_national : Option Int
  permit_comparison_local : Option Int
  cost_comparison_national : Option Int
  cost_comparison_local : Option Int
  business_climate_rating : Option Int
  reform_priorities : Option (List String)
deriving DecidableEq

/-- One row of the `responses` table, restricted to the columns the claims
touch (the full column set written by `save_draft` plus the workflow
columns `status` and `submission_date`). -/
structure Row where
  interview_id : String
  interviewer_name : String
  interview_date : String
  start_time : String
  end_time : String
  business_name : String
  district : String
  physical_address : String
  contact_person : String
  email : String
  phone : String
  primary_sector : String
  legal_status : String
  business_size : String
  ownership_structure : String
  gender_owner : String
  business_activities : String
  isic_codes : List String
  year_established : Int
  turnover_range : String
  employees_fulltime : Int
  employees_parttime : Int
  procedure_data : List ProcEntry
  completion_time_local : ℚ
  completion_time_national : ℚ
  completion_time_dk : ℚ
  compliance_cost_percentage : ℚ
  permit_comparison_national : Int
  permit_comparison_local : Int
  cost_comparison_national : Int
  cost_comparison_local : Int
  business_climate_rating : Int
  reform_priorities : List String
  status : String
  submission_date : String
  last_modified : String
  total_compliance_cost : ℚ
  total_compliance_time : ℚ
  risk_score : ℚ
  created_by : String
  current_section : String
  draft_progress : ℚ
deriving DecidableEq

/-- The Streamlit session values `save_draft` reads
(`st.session_state.current_user`, `st.session_state.current_section`). -/
structure Session where
  current_user : String
  current_section : String
deriving DecidableEq

/-- How `save_draft`'s form dict appears to `DraftManager.calculate_progress`
when `save_draft` calls it on the same dict (app.py line 1602): the
`procedure_data` and `reform_priorities` values are Python list objects (set
from `st.session_state.procedures_list` / `selected_reforms`), so an empty
list is falsy (guard fails) and `json.loads` raises `TypeError` on a
non-empty one (swallowed by the bare `except`). -/
def FormData.toProgressForm (d : FormData) : ProgressForm where
  business_name := d.business_name
  contact_person := d.contact_person
  procedure_data :=
    match d.procedure_data with
    | none => .missing
    | some [] => .missing
    | some (_ :: _) => .rawMalformed
  completion_time_local := d.completion_time_local
  completion_time_national := d.completion_time_national
  reform_priorities :=
    match d.reform_priorities with
    | none => .missing
    | some [] => .missing
    | some (_ :: _) => .rawMalformed

/-- The UPDATE branch of `save_draft` (app.py lines 1616-1675): overwrites
every form-derived column, `last_modified` and the derived metrics; the
`status` and `submission_date` columns are not in the SET list and the
`interview_id` is the WHERE key, so those three stay as they were. -/
def updateRow (sess : Session) (now : String) (data : FormData)
    (total_cost total_time risk progress : ℚ) (row : Row) : Row :=
  { row with
    interviewer_name := data.interviewer_name.getD ""
    interview_date := data.interview_date.getD ""
    start_time := data.start_time.getD ""
    end_time := data.end_time.getD ""
    business_name := data.business_name.getD ""
    district := data.district.getD ""
    physical_address := data.physical_address.getD ""
    contact_person := data.contact_person.getD ""
    email := data.email.getD ""
    phone := data.phone.getD ""
    primary_sector := data.primary_sector.getD ""
    legal_status := data.legal_status.getD ""
    business_size := data.business_size.getD ""
    ownership_structure := data.ownership_structure.getD ""
    gender_owner := data.gender_owner.getD ""
    business_activities := data.business_activities.getD ""
    isic_codes := data.isic_codes.getD []
    year_established := data.year_established.getD 0
    turnover_range := data.turnover_range.getD ""
    employees_fulltime := data.employees_fulltime.getD 0
    employees_parttime := data.employees_parttime.getD 0
    procedure_data := data.procedure_data.getD []
    completion_time_local := data.completion_time_local.getD 0
    completion_time_national := data.completion_time_national.getD 0
    completion_time_dk := data.completion_time_dk.getD 0
    compliance_cost_percentage := data.compliance_cost_percentage.getD 0
    permit_comparison_national := data.permit_comparison_national.getD 0
    permit_comparison_local := data.permit_comparison_local.getD 0
    cost_comparison_national := data.cost_comparison_national.getD 0
    cost_comparison_local := data.cost_comparison_local.getD 0
    business_climate_rating := data.business_climate_rating.getD 0
    reform_priorities := data.reform_priorities.getD []
    last_modified := now
    total_compliance_cost := total_cost
    total_compliance_time := total_time
    risk_score := risk
    created_by := sess.current_user
    current_section := sess.current_section
    draft_progress := progress }

/-- The INSERT branch of `save_draft` (app.py lines 1678-1736): a fresh row
with `status = 'draft'` and `submission_date = last_modified = now`. -/
def insertRow (sess : Session) (now : String) (data : FormData)
    (interview_id : String) (total_cost total_time risk progress : ℚ) : Row where
  interview_id := interview_id
  interviewer_name := data.interviewer_name.getD ""
  interview_date := data.interview_date.getD ""
  start_time := data.start_time.getD ""
  end_time := data.end_time.getD ""
  business_name := data.business_name.getD ""
  district := data.district.getD ""
  physical_address := data.physical_address.getD ""
  contact_person := data.contact_person.getD ""
  email := data.email.getD ""
  phone := data.phone.getD ""
  primary_sector := data.primary_sector.getD ""
  legal_status := data.legal_status.getD ""
  business_size := data.business_size.getD ""
  ownership_structure := data.ownership_structure.getD ""
  gender_owner := data.gender_owner.getD ""
  business_activities := data.business_activities.getD ""
  isic_codes := data.isic_codes.getD []
  year_established := data.year_established.getD 0
  turnover_range := data.turnover_range.getD ""
  employees_fulltime := data.employees_fulltime.getD 0
  employees_parttime := data.employees_parttime.getD 0
  procedure_data := data.procedure_data.getD []
  completion_time_local := data.completion_time_local.getD 0
  completion_time_national := data.completion_time_national.getD 0
  completion_time_dk := data.completion_time_dk.getD 0
  compliance_cost_percentage := data.compliance_cost_percentage.getD 0
  permit_comparison_national := data.permit_comparison_national.getD 0
  permit_comparison_local := data.permit_comparison_local.getD 0
  cost_comparison_national := data.cost_comparison_national.getD 0
  cost_comparison_local := data.cost_comparison_local.getD 0
  business_climate_rating := data.business_climate_rating.getD 0
  reform_priorities := data.reform_priorities.getD []
  status := "draft"
  submission_date := now
  last_modified := now
  total_compliance_cost := total_cost
  total_compliance_time := total_time
  risk_score := risk
  created_by := sess.current_user
  current_section := sess.current_section
  draft_progress := progress

/-- `save_draft(data, interview_id)` (app.py lines 1586-1745), for a caller
that already holds an `interview_id` (otherwise the source mints a
timestamp token first).  The store is viewed through the single row keyed
by that id (`SELECT id FROM responses WHERE interview_id = ?`): `db = none`
means no row exists and the INSERT branch runs, `db = some row` means the
UPDATE branch runs.  `writeOk` abstracts whether the write round trip
succeeds; on failure `execute_query` returns `None`, `save_draft` returns
`None` and the store is unchanged.  Returns (returned value, row after). -/
def save_draft (writeOk : Bool) (sess : Session) (now : String)
    (data : FormData) (interview_id : String) (db : Option Row) :
    Option String × Option Row :=
  let procedure_data := data.procedure_data.getD []
  let total_cost := totalCost procedure_data
  let total_time := totalTime procedure_data
  let risk := risk_score total_cost total_time
  let progress := calculate_progress data.toProgressForm sess.current_section
  match db with
  | some row =>
      if writeOk then
        (some interview_id,
         some (updateRow sess now data total_cost total_time risk progress row))
      else (none, some row)
  | none =>
      if writeOk then
        (some interview_id,
         some (insertRow sess now data interview_id total_cost total_time risk progress))
      else (none, none)

/-- `check_duplicate_business_name(business_name, current_interview_id)`
(app.py lines 1747-1762).  `storeFails` abstracts the store round trip
raising or returning `None`: both the `except` clause and the falsy-result
guard make the function return `False` then.  With a truthy
`current_interview_id` the count excludes that id, otherwise it counts all
rows with the name; the result is `count > 0`. -/
def check_duplicate_business_name (storeFails : Bool) (db : List Row)
    (business_name : String) (current_interview_id : Option String) : Bool :=
  if storeFails then false
  else
    let count :=
      if pyTruthyStr current_interview_id then
        (db.filter fun r =>
          r.business_name == business_name
            && r.interview_id != current_interview_id.getD "").length
      else
        (db.filter fun r => r.business_name == business_name).length
    count > 0

/-- The row transformation of `submit_final`'s UPDATE statement (app.py
line 1773): `SET status = 'submitted', submission_date = ?` on the row
whose `interview_id` matches. -/
def markSubmitted (now interview_id : String) (r : Row) : Row :=
  if r.interview_id == interview_id then
    { r with status := "submitted", submission_date := now }
  else r

/-- `submit_final(interview_id)` (app.py lines 1764-1782).  `business_name`
is read from the session form data; if the duplicate check reports a
duplicate the function returns `False` and writes nothing; otherwise the
UPDATE stamps status and submission date (`writeOk` abstracts its
success).  Returns (returned value, table after). -/
def submit_final (checkFails writeOk : Bool) (business_name now interview_id : String)
    (db : List Row) : Bool × List Row :=
  if check_duplicate_business_name checkFails db business_name (some interview_id) then
    (false, db)
  else if writeOk then
    (true, db.map (markSubmitted now interview_id))
  else (false, db)

/-- `InterviewEditor.revert_to_draft` (interview_editor.py lines 108-128):
`SET status = 'draft', last_modified = ?`; `submission_date` is untouched. -/
def revert_to_draft (now : String) (r : Row) : Row :=
  { r with status := "draft", last_modified := now }

/-- The operations that can touch an existing record's row.  For `submit`
the duplicate-check outcome and the write outcome depend on the rest of the
table and the store, so they are abstracted as booleans (every concrete
table realises one of the four combinations). -/
inductive Op where
  | upsert (writeOk : Bool) (sess : Session) (now : String) (data : FormData)
  | submit (dupFound : Bool) (writeOk : Bool) (now : String)
  | revert (now : String)
deriving DecidableEq

/-- Effect of one operation on an existing record's row. -/
def applyOp (interview_id : String) (s : Row) : Op → Row
  | .upsert writeOk sess now data =>
      ((save_draft writeOk sess now data interview_id (some s)).2).getD s
  | .submit dupFound writeOk now =>
      if dupFound then s
      else if writeOk then { s with status := "submitted", submission_date := now }
      else s
  | .revert now => revert_to_draft now s

/-- A sequence of operations applied in order. -/
def runOps (interview_id : String) (ops : List Op) (s : Row) : Row :=
  ops.foldl (applyOp interview_id) s

/-- A form-data dict with every key absent. -/
def emptyFormData : FormData where
  interviewer_name := none
  interview_date := none
  start_time := none
  end_time := none
  business_name := none
  district := none
  physical_address := none
  contact_person := none
  email := none
  phone := none
  primary_sector := none
  legal_status := none
  business_size := none
  ownership_structure := none
  gender_owner := none
  business_activities := none
  isic_codes := none
  year_established := none
  turnover_range := none
  employees_fulltime := none
  employees_parttime := none
  procedure_data := none
  completion_time_local := none
  completion_time_national := none
  completion_time_dk := none
  compliance_cost_percentage := none
  permit_comparison_national := none
  permit_comparison_local := none
  cost_comparison_national := none
  cost_comparison_local := none
  business_climate_rating := none
  reform_priorities := none

/-- A row with every column at its zero value, used to build concrete rows
in witnesses. -/
def rowZero : Row where
  interview_id := ""
  interviewer_name := ""
  interview_date := ""
  start_time := ""
  end_time := ""
  business_name := ""
  district := ""
  physical_address := ""
  contact_person := ""
  email := ""
  phone := ""
  primary_sector := ""
  legal_status := ""
  business_size := ""
  ownership_structure := ""
  gender_owner := ""
  business_activities := ""
  isic_codes := []
  year_established := 0
  turnover_range := ""
  employees_fulltime := 0
  employees_parttime := 0
  procedure_data := []
  completion_time_local := 0
  completion_time_national := 0
  completion_time_dk := 0
  compliance_cost_percentage := 0
  permit_comparison_national := 0
  permit_comparison_local := 0
  cost_comparison_national := 0
  cost_comparison_local := 0
  business_climate_rating := 0
  reform_priorities := []
  status := "draft"
  submission_date := ""
  last_modified := ""
  total_compliance_cost := 0
  total_compliance_time := 0
  risk_score := 0
  created_by := ""
  current_section := "A"
  draft_progress := 0

/-- A concrete session for witnesses. -/
def sess0 : Session where
  current_user := "interviewer1"
  current_section := "A"

/-- C1: for every procedure list P the aggregation used by `save_draft` and
`recalculate_totals` returns `total_cost = Σ (official_fees +
unofficial_payments)` and `total_time = Σ total_days`, missing numeric
fields counting as 0, and both totals are 0 on the empty list. -/
theorem c1_cost_time_aggregation (P : List ProcEntry) :
    totalCost P
      = (P.map (fun p => p.official_fees.getD 0 + p.unofficial_payments.getD 0)).sum
    ∧ totalTime P = (P.map (fun p => p.total_days.getD 0)).sum
    ∧ totalCost [] = 0 ∧ totalTime [] = 0 := by
  refine ⟨?_, ?_, rfl, rfl⟩ <;>
  · induction P with
    | nil => rfl
    | cons p rest ih => simp [totalCost, totalTime, ih]

/-- C2: the risk score stored by every upsert equals
`min((total_cost / 100000 + total_time / 365) * 10, 10)` applied to the
aggregated totals of the submitted procedure list, and an empty procedure
list yields a stored risk score of 0. -/
theorem c2_risk_score_on_upsert :
    (∀ tc tt : ℚ, risk_score tc tt = min ((tc / 100000 + tt / 365) * 10) 10)
    ∧ (∀ (sess : Session) (now iid : String) (data : FormData) (db : Option Row),
        (((save_draft true sess now data iid db).2).getD rowZero).risk_score
          = risk_score (totalCost (data.procedure_data.getD []))
              (totalTime (data.procedure_data.getD [])))
    ∧ risk_score (totalCost []) (totalTime []) = 0 := by
  refine ⟨fun tc tt => rfl, fun sess now iid data db => ?_, ?_⟩
  · cases db <;> rfl
  · show min (((0 : ℚ) / 100000 + 0 / 365) * 10) 10 = 0
    rw [show ((0 : ℚ) / 100000 + 0 / 365) * 10 = 0 by norm_num]
    exact min_eq_left (by norm_num)

/-- C3 as stated is false: the source clamps the risk score from above
only (`min(..., 10)`), so a negative total cost drives the result below 0;
at total_cost = -100000, total_time = 0 the function returns -10. -/
theorem c3_counterexample :
    risk_score (-100000) 0 = -10 ∧ ¬ (0 ≤ risk_score (-100000) 0) := by
  have h : risk_score (-100000) 0 = -10 := by
    unfold risk_score
    rw [show (((-100000 : ℚ)) / 100000 + 0 / 365) * 10 = -10 by norm_num]
    exact min_eq_left (by norm_num)
  exact ⟨h, by rw [h]; norm_num⟩

/-- C3 amended: the upper clamp `risk_score ≤ 10` holds for every input
pair unconditionally; the lower bound needs non-negative totals, so the
risk score lies in [0, 10] for non-negative inputs; and the function is
monotonically non-decreasing in each input separately without
restriction. -/
theorem c3_risk_bounds_and_monotone :
    (∀ tc tt : ℚ, risk_score tc tt ≤ 10)
    ∧ (∀ tc tt : ℚ, 0 ≤ tc → 0 ≤ tt →
        0 ≤ risk_score tc tt ∧ risk_score tc tt ≤ 10)
    ∧ (∀ tc₁ tc₂ tt : ℚ, tc₁ ≤ tc₂ → risk_score tc₁ tt ≤ risk_score tc₂ tt)
    ∧ (∀ tc tt₁ tt₂ : ℚ, tt₁ ≤ tt₂ → risk_score tc tt₁ ≤ risk_score tc tt₂) := by
  refine ⟨fun tc tt => min_le_right _ _,
    fun tc tt htc htt => ⟨?_, min_le_right _ _⟩,
    fun tc₁ tc₂ tt h => ?_, fun tc tt₁ tt₂ h => ?_⟩
  · have h1 : 0 ≤ tc / 100000 := div_nonneg htc (by norm_num)
    have h2 : 0 ≤ tt / 365 := div_nonneg htt (by norm_num)
    exact le_min (mul_nonneg (add_nonneg h1 h2) (by norm_num)) (by norm_num)
  · refine min_le_min ?_ le_rfl
    have : tc₁ / 100000 ≤ tc₂ / 100000 := by
      exact (div_le_div_right (by norm_num)).mpr h
    nlinarith
  · refine min_le_min ?_ le_rfl
    have : tt₁ / 365 ≤ tt₂ / 365 := by
      exact (div_le_div_right (by norm_num)).mpr h
    nlinarith

/-- Witness for C3 amended, at the spec's worked example (total_cost =
1700, total_time = 21), at a negative input for the unconditional upper
clamp, and at two larger comparison points for monotonicity. -/
theorem c3_witness :
    risk_score (-100000) 0 ≤ 10
    ∧ ((0 : ℚ) ≤ 1700 ∧ (0 : ℚ) ≤ 21
      ∧ 0 ≤ risk_score 1700 21 ∧ risk_score 1700 21 ≤ 10)
    ∧ ((1700 : ℚ) ≤ 2500 ∧ risk_score 1700 21 ≤ risk_score 2500 21)
    ∧ ((21 : ℚ) ≤ 30 ∧ risk_score 1700 21 ≤ risk_score 1700 30) := by
  refine ⟨?_, ⟨by norm_num, by norm_num, ?_, ?_⟩, ⟨by norm_num, ?_⟩,
    ⟨by norm_num, ?_⟩⟩
  · exact c3_risk_bounds_and_monotone.1 (-100000) 0
  · exact (c3_risk_bounds_and_monotone.2.1 1700 21 (by norm_num) (by norm_num)).1
  · exact (c3_risk_bounds_and_monotone.2.1 1700 21 (by norm_num) (by norm_num)).2
  · exact c3_risk_bounds_and_monotone.2.2.1 1700 2500 21 (by norm_num)
  · exact c3_risk_bounds_and_monotone.2.2.2 1700 21 30 (by norm_num)

/-- The sequential accumulation of `calculate_progress` counts exactly the
four section predicates of the claim. -/
lemma sectionsCompleted_eq_countSpec (f : ProgressForm) :
    sectionsCompleted f = countSpecSections f := by
  unfold sectionsCompleted countSpecSections decodedNonEmpty
  cases hA : pyTruthyStr f.business_name && pyTruthyStr f.contact_person <;>
  cases hC : f.completion_time_local.isSome && f.completion_time_national.isSome <;>
  rcases f.procedure_data with _ | _ | (_ | ⟨p, ps⟩) <;>
  rcases f.reform_priorities with _ | _ | (_ | ⟨r, rs⟩) <;>
  simp [hA, hC]

/-- The claim's first worked example: business name and contact person set,
no procedures, no time fields, no reforms. -/
def sectionAOnlyForm : ProgressForm where
  business_name := some "Acme Traders"
  contact_person := some "J. Banda"
  procedure_data := .missing
  completion_time_local := none
  completion_time_national := none
  reform_priorities := .missing

/-- The claim's second worked example: no section complete. -/
def emptyProgressForm : ProgressForm where
  business_name := none
  contact_person := none
  procedure_data := .missing
  completion_time_local := none
  completion_time_national := none
  reform_priorities := .missing

/-- C4: for every form-data dict and active-section tag,
`calculate_progress` returns `min((sections_completed / 4) * 80 + 20, 100)`
with `sections_completed` counting the four predicates (A) both names
non-empty, (B) decoded procedure list non-empty, (C) both time values
present, (D) decoded reform list non-empty; the two worked examples give
40 and 20. -/
theorem c4_progress_formula :
    (∀ (f : ProgressForm) (cs : String),
        calculate_progress f cs
          = min (((countSpecSections f : ℚ) / 4) * 80 + 20) 100)
    ∧ calculate_progress sectionAOnlyForm "A" = 40
    ∧ calculate_progress emptyProgressForm "A" = 20 := by
  refine ⟨fun f cs => ?_, ?_, ?_⟩
  · unfold calculate_progress
    rw [sectionsCompleted_eq_countSpec]
  · show min (((sectionsCompleted sectionAOnlyForm : ℚ) / 4) * 80 + 20) 100 = 40
    rw [show sectionsCompleted sectionAOnlyForm = 1 by rfl]
    rw [show ((1 : Nat) : ℚ) / 4 * 80 + 20 = 40 by norm_num]
    exact min_eq_left (by norm_num)
  · show min (((sectionsCompleted emptyProgressForm : ℚ) / 4) * 80 + 20) 100 = 20
    rw [show sectionsCompleted emptyProgressForm = 0 by rfl]
    rw [show ((0 : Nat) : ℚ) / 4 * 80 + 20 = 20 by norm_num]
    exact min_eq_left (by norm_num)

/-- C9: a malformed embedded JSON value (decode raises) never makes
`calculate_progress` fail; the section counts exactly as it does for an
empty decoded list (and as for an absent value), for both the procedure
list and the reform-priorities list, for every surrounding form state. -/
theorem c9_malformed_json_degrades_to_empty (f : ProgressForm) (cs : String) :
    calculate_progress { f with procedure_data := .rawMalformed } cs
      = calculate_progress { f with procedure_data := .rawDecodable [] } cs
    ∧ calculate_progress { f with reform_priorities := .rawMalformed } cs
      = calculate_progress { f with reform_priorities := .rawDecodable [] } cs
    ∧ calculate_progress
        { f with procedure_data := .rawMalformed,
                 reform_priorities := .rawMalformed } cs
      = calculate_progress
        { f with procedure_data := .missing, reform_priorities := .missing } cs := by
  refine ⟨?_, ?_, ?_⟩ <;> simp [calculate_progress, sectionsCompleted]

/-- C5: if some other existing row (different `interview_id`) carries the
same business name, `submit_final` returns failure and leaves the table —
in particular the record's row and its `status` — unchanged; and the check
excludes the record's own row, so a record whose name matches only itself
is not reported as a duplicate. -/
theorem c5_duplicate_name_gate (db : List Row) (name now iid : String) :
    ((∃ r ∈ db, r.business_name = name ∧ r.interview_id ≠ iid) →
        submit_final false true name now iid db = (false, db))
    ∧ (iid ≠ "" → (∀ r ∈ db, r.business_name = name → r.interview_id = iid) →
        check_duplicate_business_name false db name (some iid) = false) := by
  constructor
  · rintro ⟨r, hr, hname, hid⟩
    have hct : check_duplicate_business_name false db name (some iid) = true := by
      unfold check_duplicate_business_name
      by_cases hiid : iid = ""
      · subst hiid
        have hmem : r ∈ db.filter fun q => q.business_name == name := by
          exact List.mem_filter.mpr ⟨hr, by simp [hname]⟩
        simp [pyTruthyStr, List.length_pos_of_mem hmem]
      · have hmem : r ∈ db.filter fun q =>
            q.business_name == name && q.interview_id != iid := by
          exact List.mem_filter.mpr ⟨hr, by simp [hname, hid]⟩
        simp [pyTruthyStr, hiid, List.length_pos_of_mem hmem]
    unfold submit_final
    rw [hct]
    simp
  · intro hiid hall
    have hfilter : (db.filter fun q =>
        q.business_name == name && q.interview_id != iid) = [] := by
      rw [List.filter_eq_nil]
      intro q hq
      simp only [Bool.and_eq_true, beq_iff_eq, bne_iff_ne, ne_eq, not_and,
        not_not]
      exact fun hname => hall q hq hname
    unfold check_duplicate_business_name
    simp [pyTruthyStr, hiid, hfilter]

/-- An existing row "INT_1" holding the name "Acme Traders". -/
def rowAcme1 : Row := { rowZero with interview_id := "INT_1", business_name := "Acme Traders" }

/-- A draft row "INT_2" about to be submitted under a clashing name. -/
def rowOld2 : Row := { rowZero with interview_id := "INT_2", business_name := "Old Name" }

/-- A row whose business name matches no other row. -/
def rowUnique1 : Row := { rowZero with interview_id := "INT_1", business_name := "Unique Co" }

/-- Witness for C5 on a two-row table: submitting "INT_2" while "INT_1"
already holds the name "Acme Traders" is refused with the table unchanged,
and a name matching only the record's own row is not flagged. -/
theorem c5_witness :
    submit_final false true "Acme Traders" "2024-03-03T00:00:00" "INT_2"
        [rowAcme1, rowOld2]
      = (false, [rowAcme1, rowOld2])
    ∧ check_duplicate_business_name false [rowUnique1]
        "Unique Co" (some "INT_1") = false := by
  constructor
  · exact (c5_duplicate_name_gate [rowAcme1, rowOld2] "Acme Traders"
      "2024-03-03T00:00:00" "INT_2").1
      ⟨rowAcme1, List.mem_cons_self _ _, rfl, by decide⟩
  · exact (c5_duplicate_name_gate [rowUnique1] "Unique Co" "" "INT_1").2 (by decide)
      (fun r hr _ => by
        rw [List.mem_singleton.mp hr]
        rfl)

/-- C10: when the store round trip of the duplicate check fails, the check
reports no duplicate (`False`), so a final submission whose duplicate check
errors proceeds with the draft-to-submitted transition on every table —
including tables that do contain another row with the same name. -/
theorem c10_store_error_reports_no_duplicate :
    (∀ (db : List Row) (name : String) (cid : Option String),
        check_duplicate_business_name true db name cid = false)
    ∧ (∀ (db : List Row) (name now iid : String),
        submit_final true true name now iid db
          = (true, db.map (markSubmitted now iid))) := by
  exact ⟨fun db name cid => rfl, fun db name now iid => rfl⟩

/-- C6: upsert idempotence — running `save_draft` twice with the same
form data, session and `interview_id` returns the id both times and leaves
a second row equal to the first in every column except `last_modified`,
whatever the prior state of the row (absent or present). -/
theorem c6_upsert_idempotent (sess : Session) (t1 t2 : String)
    (data : FormData) (iid : String) (db : Option Row) :
    ∃ r1 : Row,
      (save_draft true sess t1 data iid db).2 = some r1
      ∧ (save_draft true sess t1 data iid db).1 = some iid
      ∧ (save_draft true sess t2 data iid (some r1)).2
          = some { r1 with last_modified := t2 }
      ∧ (save_draft true sess t2 data iid (some r1)).1 = some iid := by
  cases db with
  | none => exact ⟨_, rfl, rfl, rfl, rfl⟩
  | some row => exact ⟨_, rfl, rfl, rfl, rfl⟩

/-- An already-submitted row used to exhibit the columns the UPDATE branch
does not touch. -/
def submittedRow : Row := { rowZero with interview_id := "INT_A", status := "submitted", submission_date := "2024-01-01T00:00:00" }

/-- C7 as stated is false: the UPDATE branch of `save_draft` does not
overwrite every column.  `status` is not in the SET list: upserting a
form dict with no `status`-related key over a submitted row leaves
`status = "submitted"` instead of the empty-string default the claim's
every-column reading would require (likewise `submission_date`). -/
theorem c7_counterexample :
    (((save_draft true sess0 "2024-02-02T00:00:00" emptyFormData "INT_A"
        (some submittedRow)).2).getD rowZero).status = "submitted"
    ∧ (((save_draft true sess0 "2024-02-02T00:00:00" emptyFormData "INT_A"
        (some submittedRow)).2).getD rowZero).submission_date
        = "2024-01-01T00:00:00"
    ∧ ("submitted" : String) ≠ "" := by
  exact ⟨rfl, rfl, by decide⟩

/-- C7 amended: on an existing row the upsert overwrites every
form-derived column (and `last_modified`, the derived metrics, and the
session-derived columns) with the current form values, defaulting missing
scalars to 0 / 0.0 / "" and missing lists to the empty encoded list, while
`status`, `submission_date` and the key `interview_id` keep their prior
values. -/
theorem c7_full_row_overwrite (sess : Session) (now : String)
    (data : FormData) (iid : String) (row : Row) :
    ∃ r : Row, (save_draft true sess now data iid (some row)).2 = some r
      ∧ r.interviewer_name = data.interviewer_name.getD ""
      ∧ r.interview_date = data.interview_date.getD ""
      ∧ r.start_time = data.start_time.getD ""
      ∧ r.end_time = data.end_time.getD ""
      ∧ r.business_name = data.business_name.getD ""
      ∧ r.district = data.district.getD ""
      ∧ r.physical_address = data.physical_address.getD ""
      ∧ r.contact_person = data.contact_person.getD ""
      ∧ r.email = data.email.getD ""
      ∧ r.phone = data.phone.getD ""
      ∧ r.primary_sector = data.primary_sector.getD ""
      ∧ r.legal_status = data.legal_status.getD ""
      ∧ r.business_size = data.business_size.getD ""
      ∧ r.ownership_structure = data.ownership_structure.getD ""
      ∧ r.gender_owner = data.gender_owner.getD ""
      ∧ r.business_activities = data.business_activities.getD ""
      ∧ r.isic_codes = data.isic_codes.getD []
      ∧ r.year_established = data.year_established.getD 0
      ∧ r.turnover_range = data.turnover_range.getD ""
      ∧ r.employees_fulltime = data.employees_fulltime.getD 0
      ∧ r.employees_parttime = data.employees_parttime.getD 0
      ∧ r.procedure_data = data.procedure_data.getD []
      ∧ r.completion_time_local = data.completion_time_local.getD 0
      ∧ r.completion_time_national = data.completion_time_national.getD 0
      ∧ r.completion_time_dk = data.completion_time_dk.getD 0
      ∧ r.compliance_cost_percentage = data.compliance_cost_percentage.getD 0
      ∧ r.permit_comparison_national = data.permit_comparison_national.getD 0
      ∧ r.permit_comparison_local = data.permit_comparison_local.getD 0
      ∧ r.cost_comparison_national = data.cost_comparison_national.getD 0
      ∧ r.cost_comparison_local = data.cost_comparison_local.getD 0
      ∧ r.business_climate_rating = data.business_climate_rating.getD 0
      ∧ r.reform_priorities = data.reform_priorities.getD []
      ∧ r.last_modified = now
      ∧ r.total_compliance_cost = totalCost (data.procedure_data.getD [])
      ∧ r.total_compliance_time = totalTime (data.procedure_data.getD [])
      ∧ r.risk_score = risk_score (totalCost (data.procedure_data.getD []))
          (totalTime (data.procedure_data.getD []))
      ∧ r.created_by = sess.current_user
      ∧ r.current_section = sess.current_section
      ∧ r.draft_progress
          = calculate_progress data.toProgressForm sess.current_section
      ∧ r.status = row.status
      ∧ r.submission_date = row.submission_date
      ∧ r.interview_id = row.interview_id := by
  refine ⟨_, rfl, ?_⟩
  and_intros <;> rfl

/-- Every single operation either leaves `status` alone, or is a
dup-free successful submission setting it to "submitted", or is a revert
setting it to "draft". -/
lemma applyOp_status_cases (iid : String) (s : Row) (op : Op) :
    (applyOp iid s op).status = s.status
    ∨ ((applyOp iid s op).status = "submitted" ∧ ∃ n, op = Op.submit false true n)
    ∨ ((applyOp iid s op).status = "draft" ∧ ∃ n, op = Op.revert n) := by
  rcases op with ⟨w, sess, now, data⟩ | ⟨d, w, n⟩ | n
  · left
    cases w <;> rfl
  · cases d
    · cases w
      · left; rfl
      · right; left; exact ⟨rfl, n, rfl⟩
    · left; rfl
  · right; right; exact ⟨rfl, n, rfl⟩

/-- Every single operation either preserves `submission_date` or is a
dup-free successful submission stamping it with the submission time. -/
lemma applyOp_submission_date_cases (iid : String) (s : Row) (op : Op) :
    (applyOp iid s op).submission_date = s.submission_date
    ∨ ∃ n, op = Op.submit false true n
        ∧ (applyOp iid s op).submission_date = n := by
  rcases op with ⟨w, sess, now, data⟩ | ⟨d, w, n⟩ | n
  · left
    cases w <;> rfl
  · cases d
    · cases w
      · left; rfl
      · right; exact ⟨n, rfl, rfl⟩
    · left; rfl
  · left; rfl

/-- C8: along every sequence of upserts, submissions and reverts on a
record, `status` stays in the draft/submitted alphabet; any step that
changes it is either the draft-to-submitted transition of a successful
submission or the submitted-to-draft transition of the administrative
revert; `submission_date` changes only when a successful submission stamps
it; and the revert sets `status` back to "draft" without clearing
`submission_date`. -/
theorem c8_status_transitions (iid : String) :
    (∀ (s : Row) (op : Op),
        s.status = "draft" ∨ s.status = "submitted" →
        (applyOp iid s op).status = "draft"
          ∨ (applyOp iid s op).status = "submitted")
    ∧ (∀ (s : Row) (op : Op),
        s.status = "draft" ∨ s.status = "submitted" →
        (applyOp iid s op).status ≠ s.status →
        (s.status = "draft" ∧ (applyOp iid s op).status = "submitted"
            ∧ ∃ n, op = Op.submit false true n)
          ∨ (s.status = "submitted" ∧ (applyOp iid s op).status = "draft"
              ∧ ∃ n, op = Op.revert n))
    ∧ (∀ (s : Row) (op : Op),
        (applyOp iid s op).submission_date = s.submission_date
          ∨ ∃ n, op = Op.submit false true n
              ∧ (applyOp iid s op).submission_date = n)
    ∧ (∀ (s : Row) (n : String),
        (applyOp iid s (Op.revert n)).status = "draft"
        ∧ (applyOp iid s (Op.revert n)).submission_date = s.submission_date)
    ∧ (∀ (ops : List Op) (s : Row),
        s.status = "draft" ∨ s.status = "submitted" →
        (runOps iid ops s).status = "draft"
          ∨ (runOps iid ops s).status = "submitted") := by
  have hstep : ∀ (s : Row) (op : Op),
      s.status = "draft" ∨ s.status = "submitted" →
      (applyOp iid s op).status = "draft"
        ∨ (applyOp iid s op).status = "submitted" := by
    intro s op h
    rcases applyOp_status_cases iid s op with h1 | ⟨h1, _⟩ | ⟨h1, _⟩
    · rw [h1]; exact h
    · right; exact h1
    · left; exact h1
  refine ⟨hstep, ?_, applyOp_submission_date_cases iid, fun s n => ⟨rfl, rfl⟩, ?_⟩
  · intro s op h hne
    rcases applyOp_status_cases iid s op with h1 | ⟨h1, hop⟩ | ⟨h1, hop⟩
    · exact absurd h1 hne
    · left
      refine ⟨?_, h1, hop⟩
      rcases h with hd | hs
      · exact hd
      · exact absurd (h1.trans hs.symm) hne
    · right
      refine ⟨?_, h1, hop⟩
      rcases h with hd | hs
      · exact absurd (h1.trans hd.symm) hne
      · exact hs
  · intro ops
    induction ops with
    | nil => exact fun s h => h
    | cons op rest ih =>
        intro s h
        exact ih (applyOp iid s op) (hstep s op h)

/-- Witness for C8: from a fresh draft row, a successful submission is the
draft-to-submitted transition, and after a subsequent revert the status
alphabet is preserved along the whole trace. -/
theorem c8_witness :
    ((applyOp "INT_A" rowZero (Op.submit false true "T1")).status = "draft"
      ∨ (applyOp "INT_A" rowZero (Op.submit false true "T1")).status = "submitted")
    ∧ ((rowZero.status = "draft"
          ∧ (applyOp "INT_A" rowZero (Op.submit false true "T1")).status
              = "submitted"
          ∧ ∃ n, Op.submit false true "T1" = Op.submit false true n)
        ∨ (rowZero.status = "submitted"
          ∧ (applyOp "INT_A" rowZero (Op.submit false true "T1")).status
              = "draft"
          ∧ ∃ n, Op.submit false true "T1" = Op.revert n))
    ∧ ((runOps "INT_A" [Op.submit false true "T1", Op.revert "T2"]
          rowZero).status = "draft"
      ∨ (runOps "INT_A" [Op.submit false true "T1", Op.revert "T2"]
          rowZero).status = "submitted") := by
  refine ⟨?_, ?_, ?_⟩
  · exact (c8_status_transitions "INT_A").1 rowZero (Op.submit false true "T1")
      (Or.inl rfl)
  · exact (c8_status_transitions "INT_A").2.1 rowZero (Op.submit false true "T1")
      (Or.inl rfl) (by decide)
  · exact (c8_status_transitions "INT_A").2.2.2.2
      [Op.submit false true "T1", Op.revert "T2"] rowZero (Or.inl rfl)

end RCA
